import Mathlib

/-!
Shallow embedding of the extraction-evaluation harness of the
`fireworks_streamlit` repository (files `main.py`, `run_evaluation.py`),
together with theorems settling the specification claims about it.

Modelling conventions:
* A Python `dict` of string keys and values is an association list
  (`FieldMap`); lookup returns the value of the first matching key.
* Python floats are modelled as exact rationals (`ℚ`).
* Python exceptions are modelled with `Except` / explicit error components;
  a function that can also mutate state before raising returns the mutated
  state alongside the error, mirroring that the object's fields keep their
  assigned values when an exception propagates.
* The nondeterministic external model call is an oracle parameter giving
  the outcome of each attempt / iteration.
-/

set_option maxHeartbeats 1000000

/-- A field mapping: Python `dict` with string keys, values compared via
`str(...)`, modelled as an association list of strings. -/
abbrev FieldMap := List (String × String)

/-- Python dict lookup: value of the first entry with the given key
(`extracted_output[key]` / `key in extracted_output`). -/
def dictLookup (m : FieldMap) (k : String) : Option String :=
  match m with
  | [] => none
  | (k', v) :: rest => if k' = k then some v else dictLookup rest k

/-- The value handed to the comparator: either a Python dict or any
non-dict value (`None`, a string, ...) — `isinstance(extracted_output, dict)`
distinguishes the two. -/
inductive Extracted where
  | dict (m : FieldMap)
  | nonDict
  deriving DecidableEq

/-- Python `str.upper()` (for the ASCII field values at hand): uppercase
every character.  Stated on the character list so that it evaluates by
kernel reduction. -/
def pyUpper (s : String) : String :=
  ⟨s.data.map Char.toUpper⟩

/-- One conjunct of the generator inside `compare_objects`:
`key in extracted_output and str(extracted_output[key]).upper() == str(expected_val).upper()`. -/
def entryMatches (m : FieldMap) (key val : String) : Bool :=
  (dictLookup m key).isSome &&
    decide (pyUpper ((dictLookup m key).getD "") = pyUpper val)

/-- `ObjectComparer.compare_objects` (run_evaluation.py, lines 42-74):
returns `0.0` if the actual value is not a dict, else
`(matches / total_keys) * 100` with `0` when there are no expected keys. -/
def compare_objects (expected_output : FieldMap) (extracted_output : Extracted) : ℚ :=
  match extracted_output with
  | .nonDict => 0
  | .dict m =>
      let total_keys : ℚ := expected_output.length
      let match_count : ℚ := expected_output.countP (fun kv => entryMatches m kv.1 kv.2)
      if expected_output.length > 0 then (match_count / total_keys) * 100 else 0

/-- The `performance_results` dictionary of `ObjectComparer.__init__`. -/
structure PerformanceResults where
  total_iterations : Nat
  exact_matches : Nat
  partial_matches : List Extracted
  match_percentages : List ℚ
  deriving DecidableEq

/-- The initial `performance_results` set up by `ObjectComparer.__init__`. -/
def initPerformanceResults : PerformanceResults :=
  { total_iterations := 0
    exact_matches := 0
    partial_matches := []
    match_percentages := [] }

/-- An `ObjectComparer` instance: its `expected_output` and its mutable
`performance_results`. -/
structure ObjectComparer where
  expected_output : FieldMap
  performance_results : PerformanceResults
  deriving DecidableEq

/-- `ObjectComparer(expected_output)`. -/
def mkObjectComparer (expected_output : FieldMap) : ObjectComparer :=
  { expected_output := expected_output
    performance_results := initPerformanceResults }

/-- `ObjectComparer.track_performance` (run_evaluation.py, lines 76-99):
computes the match percentage once, then increments `total_iterations`,
appends the percentage, increments `exact_matches` when the percentage is
exactly 100, and appends the extracted value to `partial_matches` when the
percentage is strictly between 0 and 100. -/
def track_performance (c : ObjectComparer) (extracted_output : Extracted) : ObjectComparer :=
  let match_percentage := compare_objects c.expected_output extracted_output
  let r := c.performance_results
  { c with
    performance_results :=
      { total_iterations := r.total_iterations + 1
        match_percentages := r.match_percentages ++ [match_percentage]
        exact_matches :=
          if match_percentage = 100 then r.exact_matches + 1 else r.exact_matches
        partial_matches :=
          if 0 < match_percentage ∧ match_percentage < 100 then
            r.partial_matches ++ [extracted_output]
          else r.partial_matches } }

/-- A sequence of `track_performance` calls on one comparer. -/
def trackAll (c : ObjectComparer) (vs : List Extracted) : ObjectComparer :=
  vs.foldl track_performance c

/-- `np.mean` on a 1-dimensional list: sum divided by length. -/
def npMean (xs : List ℚ) : ℚ :=
  xs.sum / xs.length

/-- The dictionary returned by `ObjectComparer.get_performance_summary`. -/
structure PerformanceSummary where
  total_iterations : Nat
  exact_match_rate : ℚ
  average_match_percentage : ℚ
  deriving DecidableEq

/-- `ObjectComparer.get_performance_summary` (run_evaluation.py, lines 101-115). -/
def get_performance_summary (c : ObjectComparer) : PerformanceSummary :=
  let r := c.performance_results
  { total_iterations := r.total_iterations
    exact_match_rate :=
      if r.total_iterations > 0 then
        ((r.exact_matches : ℚ) / (r.total_iterations : ℚ)) * 100
      else 0
    average_match_percentage :=
      if r.match_percentages ≠ [] then npMean r.match_percentages else 0 }

/-!
## Evaluation driver (`run_extraction_performance_test`, run_evaluation.py lines 118-146)

Each iteration calls `simulate_extraction`, which wraps
`KYCDocumentProcessor.process_document` and may raise (`RuntimeError`).
The outcome of the extraction on each iteration is an oracle
`extract : Nat → Except String Extracted`: `.ok v` is the value the call
returns, `.error e` is the exception it raises.  Python propagates the
exception out of the loop; the embedding returns the raised message
together with the comparer state at the moment of the raise, so that
this state is observable in theorems.
-/

/-- The `for i in range(evaluation_iterations)` loop body of
`run_extraction_performance_test`: starting at iteration index `i` with `n`
iterations remaining, either finishes with the final comparer state
(`none`: no exception) or stops at the first raising extraction
(`some e`), leaving the comparer as it was when the exception was raised. -/
def runLoop (extract : Nat → Except String Extracted) :
    Nat → Nat → ObjectComparer → ObjectComparer × Option String
  | _, 0, c => (c, none)
  | i, n + 1, c =>
      match extract i with
      | .error e => (c, some e)
      | .ok v => runLoop extract (i + 1) n (track_performance c v)

/-- `run_extraction_performance_test(expected_output, ..., evaluation_iterations)`:
builds a fresh `ObjectComparer`, loops `range(evaluation_iterations)` times
(empty for a non-positive count, as in Python), and displays the summary.
A propagating `RuntimeError` is `.error` carrying the message and the
comparer state at the point of failure; `.ok` carries the summary. -/
def run_extraction_performance_test (expected_output : FieldMap)
    (extract : Nat → Except String Extracted) (evaluation_iterations : Int) :
    Except (String × ObjectComparer) PerformanceSummary :=
  let comparer := mkObjectComparer expected_output
  match runLoop extract 0 evaluation_iterations.toNat comparer with
  | (c, none) => .ok (get_performance_summary c)
  | (c, some e) => .error (e, c)

/-!
## `KYCDocumentProcessor.process_document` (main.py lines 51-140)
-/

/-- The mutable fields of `KYCDocumentProcessor` relevant to
`process_document`: the stored base64 image and the stored extension
(both `None` after `__init__`). -/
structure ProcessorState where
  image_base64 : Option String
  ext : Option String
  deriving DecidableEq

/-- `KYCDocumentProcessor.__init__`: `self.image_base64 = None`, `self.ext = None`. -/
def initProcessorState : ProcessorState :=
  { image_base64 := none, ext := none }

/-- `valid_extensions` from `process_document`. -/
def valid_extensions : List String :=
  ["png", "jpg", "jpeg", "gif", "bmp", "tiff", "ppm"]

/-- `uploaded_image.name.split('.')[-1]`: the segment after the last dot,
i.e. the longest dot-free suffix of the name (the whole name when it has
no dot, the empty string when it ends in a dot). -/
def extOf (name : String) : String :=
  ⟨(name.data.reverse.takeWhile (fun c => c ≠ '.')).reverse⟩

/-- The errors `process_document` can raise before reaching the API loop. -/
inductive SetupError where
  | noImage
  | invalidExtension
  deriving DecidableEq

/-- The image-handling phase of `process_document` (main.py lines 68-93),
before the API-call loop.  `uploaded` is `Some name` when an
`uploaded_image` argument is passed, and `encoded` stands for
`base64.b64encode(PNG(rotated_image))`.  The mutated `ProcessorState` is
returned even when an error is raised, mirroring that Python's `raise`
leaves already-assigned attributes in place. -/
def process_document_setup (st : ProcessorState) (uploaded : Option String)
    (encoded : String) : ProcessorState × Option SetupError :=
  match uploaded with
  | none =>
      if st.image_base64.isSome then (st, none)
      else (st, some .noImage)
  | some name =>
      let st1 := { st with image_base64 := some encoded }
      let ext := extOf name
      if valid_extensions.contains ext then
        ({ st1 with ext := some ext }, none)
      else
        (st1, some .invalidExtension)

/-- The outcome of one attempt of the API-call loop: either the call /
JSON parse raised an exception with message `e`, or it produced a parsed
dict `r`. -/
inductive AttemptResult where
  | exn (e : String)
  | parsed (r : FieldMap)
  deriving DecidableEq

/-- The last underlying exception wrapped into the `RuntimeError`. -/
inductive PyExn where
  | apiOrParse (e : String)
  | keyError (k : String)
  deriving DecidableEq

/-- The data of the `RuntimeError` raised on the last attempt:
`f"Failed to process document after {max_attempts} attempts: {str(e)}"`. -/
structure RuntimeFailure where
  attempts : Nat
  cause : PyExn
  deriving DecidableEq

/-- `max_attempts` in `process_document`. -/
def maxAttempts : Nat := 5

/-- Python truthiness of the `doc_type` argument: `False` (`none`) and the
empty list are falsy, so `if not doc_type` returns the parsed response
immediately. -/
def docTypeFalsy : Option (List String) → Bool
  | none => true
  | some l => l.isEmpty

/-- Python `needle in hay` on strings: substring containment. -/
def strContains (hay needle : String) : Bool :=
  decide (needle.data <:+: hay.data)

/-- The `for attempt in range(max_attempts)` loop of `process_document`
(main.py lines 96-140), on the list of outcomes of the remaining attempts
(the last list element is attempt `max_attempts - 1`).  Result:
`.ok (some r)` — a `return` of the parsed dict; `.ok none` — the loop ends
without returning or raising, so the function returns `None`;
`.error f` — the `RuntimeError` raised on the last attempt.
A parsed response lacking the `"document_type"` key raises `KeyError`
inside the `try`, which the `except` treats like any other attempt
failure. -/
def attemptLoop (doc_type : Option (List String)) :
    List AttemptResult → Except RuntimeFailure (Option FieldMap)
  | [] => .ok none
  | a :: rest =>
      match a with
      | .exn e =>
          if rest.isEmpty then .error ⟨maxAttempts, .apiOrParse e⟩
          else attemptLoop doc_type rest
      | .parsed r =>
          if docTypeFalsy doc_type then .ok (some r)
          else
            match dictLookup r "document_type" with
            | none =>
                if rest.isEmpty then .error ⟨maxAttempts, .keyError "document_type"⟩
                else attemptLoop doc_type rest
            | some dt =>
                if (doc_type.getD []).any (fun i => strContains dt i) then .ok (some r)
                else attemptLoop doc_type rest

/-- The API-call loop of `process_document` run for its full budget of
`max_attempts = 5` attempts, with `outcomes` giving each attempt's result. -/
def process_document_attempts (doc_type : Option (List String))
    (outcomes : Nat → AttemptResult) : Except RuntimeFailure (Option FieldMap) :=
  attemptLoop doc_type ((List.range maxAttempts).map outcomes)

/-!
## The evaluation page body (run_evaluation.py lines 215-250)
-/

/-- `max_size = 5 * 1024 * 1024` (the 5 MB limit). -/
def max_size : Nat := 5 * 1024 * 1024

/-- Inputs of the evaluation page body: the uploaded file's size in bytes
when a file is uploaded, and whether the process button is pressed. -/
structure EvalPageInput where
  uploaded_size : Option Nat
  button_pressed : Bool
  deriving DecidableEq

/-- Which operations the evaluation page body executes. -/
structure EvalPageEffects where
  size_error_shown : Bool
  image_opened : Bool
  image_rotated : Bool
  original_displayed : Bool
  rotated_displayed : Bool
  run_invoked : Bool
  deriving DecidableEq

/-- The straight-line control flow of the page body under
`if uploaded_file is not None:`: the oversize check only calls
`st.error` (no return/stop), then the image is opened, rotated and
displayed unconditionally, and the performance run is invoked exactly
when the button is pressed. -/
def run_evaluation_page (inp : EvalPageInput) : EvalPageEffects :=
  match inp.uploaded_size with
  | none =>
      { size_error_shown := false
        image_opened := false
        image_rotated := false
        original_displayed := false
        rotated_displayed := false
        run_invoked := false }
  | some file_size =>
      { size_error_shown := file_size > max_size
        image_opened := true
        image_rotated := true
        original_displayed := true
        rotated_displayed := true
        run_invoked := inp.button_pressed }

/-!
## Specification-side definitions and invariants
-/

/-- The specification's notion of a matching key (for comparison with the
code's `entryMatches`): the key is present in the actual mapping and the
case-normalized string forms of the two values are equal. -/
def claimKeyMatch (A : FieldMap) (k v : String) : Bool :=
  match dictLookup A k with
  | some w => decide (pyUpper w = pyUpper v)
  | none => false

/-- The specification's matched-key count: the number of keys of the
expected mapping that `claimKeyMatch` accepts against the actual mapping. -/
def claimMatchCount (E A : FieldMap) : Nat :=
  E.countP (fun kv => claimKeyMatch A kv.1 kv.2)

/-- The tracker invariant stated in the specification's data model:
`len(match_percentages) == total_iterations`,
`exact_matches <= total_iterations`, and every retained partial match has
a recorded percentage strictly between 0 and 100. -/
def PerfInv (r : PerformanceResults) : Prop :=
  r.match_percentages.length = r.total_iterations ∧
  r.exact_matches ≤ r.total_iterations ∧
  ∀ x ∈ r.partial_matches, ∃ p ∈ r.match_percentages, 0 < p ∧ p < 100

/-!
## Helper lemmas
-/

theorem track_performance_total (c : ObjectComparer) (v : Extracted) :
    (track_performance c v).performance_results.total_iterations =
      c.performance_results.total_iterations + 1 := rfl

theorem track_performance_mp (c : ObjectComparer) (v : Extracted) :
    (track_performance c v).performance_results.match_percentages =
      c.performance_results.match_percentages ++
        [compare_objects c.expected_output v] := rfl

theorem track_performance_exact (c : ObjectComparer) (v : Extracted) :
    (track_performance c v).performance_results.exact_matches =
      if compare_objects c.expected_output v = 100 then
        c.performance_results.exact_matches + 1
      else c.performance_results.exact_matches := rfl

theorem track_performance_partial_field (c : ObjectComparer) (v : Extracted) :
    (track_performance c v).performance_results.partial_matches =
      if 0 < compare_objects c.expected_output v ∧
          compare_objects c.expected_output v < 100 then
        c.performance_results.partial_matches ++ [v]
      else c.performance_results.partial_matches := rfl

theorem entryMatches_eq_claimKeyMatch (A : FieldMap) (k v : String) :
    entryMatches A k v = claimKeyMatch A k v := by
  unfold entryMatches claimKeyMatch
  cases h : dictLookup A k <;> simp [h]

theorem dictLookup_append_of_ne (A : FieldMap) (k' v' key : String)
    (h : key ≠ k') : dictLookup (A ++ [(k', v')]) key = dictLookup A key := by
  induction A with
  | nil =>
      simp only [List.nil_append, dictLookup]
      rw [if_neg (fun hh => h hh.symm)]
  | cons kv rest ih =>
      obtain ⟨k1, v1⟩ := kv
      simp only [List.cons_append, dictLookup]
      split <;> simp [ih]

theorem entryMatches_append_of_ne (A : FieldMap) (k' v' key val : String)
    (h : key ≠ k') :
    entryMatches (A ++ [(k', v')]) key val = entryMatches A key val := by
  unfold entryMatches
  rw [dictLookup_append_of_ne A k' v' key h]

theorem perfInv_init : PerfInv initPerformanceResults := by
  refine ⟨rfl, Nat.le_refl 0, ?_⟩
  intro x hx
  simp [initPerformanceResults] at hx

theorem perfInv_track (c : ObjectComparer) (v : Extracted)
    (h : PerfInv c.performance_results) :
    PerfInv (track_performance c v).performance_results := by
  obtain ⟨h1, h2, h3⟩ := h
  refine ⟨?_, ?_, ?_⟩
  · rw [track_performance_mp, track_performance_total]
    simp [h1]
  · rw [track_performance_exact, track_performance_total]
    split <;> omega
  · rw [track_performance_partial_field, track_performance_mp]
    split
    · next hcond =>
        intro x hx
        rcases List.mem_append.mp hx with hx' | hx'
        · obtain ⟨p, hp, hp0, hp100⟩ := h3 x hx'
          exact ⟨p, List.mem_append_left _ hp, hp0, hp100⟩
        · have hxv : x = v := by simpa using hx'
          subst hxv
          exact ⟨compare_objects c.expected_output x,
            List.mem_append_right _ (by simp), hcond.1, hcond.2⟩
    · intro x hx
      obtain ⟨p, hp, hp0, hp100⟩ := h3 x hx
      exact ⟨p, List.mem_append_left _ hp, hp0, hp100⟩

theorem perfInv_trackAll (c : ObjectComparer) (vs : List Extracted)
    (h : PerfInv c.performance_results) :
    PerfInv (trackAll c vs).performance_results := by
  induction vs generalizing c with
  | nil => exact h
  | cons v rest ih => exact ih _ (perfInv_track c v h)

theorem runLoop_stops (extract : Nat → Except String Extracted) (e : String)
    (m : Nat) :
    ∀ (i n : Nat) (c : ObjectComparer), m < n →
      (∀ j, j < m → (extract (i + j)).isOk = true) →
      extract (i + m) = .error e →
      ∃ c', runLoop extract i n c = (c', some e) ∧
        c'.performance_results.total_iterations =
          c.performance_results.total_iterations + m := by
  induction m with
  | zero =>
      intro i n c hmn _ hfail
      obtain ⟨n', rfl⟩ : ∃ n', n = n' + 1 := ⟨n - 1, by omega⟩
      rw [Nat.add_zero] at hfail
      exact ⟨c, by simp [runLoop, hfail], by omega⟩
  | succ m ih =>
      intro i n c hmn hok hfail
      obtain ⟨n', rfl⟩ : ∃ n', n = n' + 1 := ⟨n - 1, by omega⟩
      have h0 : (extract i).isOk = true := by simpa using hok 0 (by omega)
      obtain ⟨v, hv⟩ : ∃ v, extract i = .ok v := by
        cases hx : extract i with
        | ok v => exact ⟨v, rfl⟩
        | error e' => rw [hx] at h0; simp [Except.isOk, Except.toBool] at h0
      obtain ⟨c', hc', htot⟩ := ih (i + 1) n' (track_performance c v)
        (by omega)
        (fun j hj => by
          have h := hok (j + 1) (by omega)
          have harith : i + (j + 1) = i + 1 + j := by omega
          rwa [harith] at h)
        (by
          have harith : i + (m + 1) = i + 1 + m := by omega
          rwa [harith] at hfail)
      refine ⟨c', ?_, ?_⟩
      · simp only [runLoop, hv]
        exact hc'
      · rw [htot, track_performance_total]
        omega

/-!
## Claim theorems
-/

/-- C1: the claim says `process_document` raises its extraction-failure
error after all 5 attempts fail to produce a satisfying result, with a
classification mismatch retried exactly like a hard failure.  The code
violates this (contradicting its own docstring, which promises a
`RuntimeError` when processing fails after `max_attempts`): when every
attempt parses but the `document_type` is outside the expected set, the
loop falls through on the final attempt without raising, and the function
returns `None` normally. -/
theorem process_document_mismatch_returns_none :
    process_document_attempts (some ["passport", "driver_licence"])
      (fun _ => .parsed [("document_type", "invoice")]) = .ok none := rfl

/-- C2: if the extraction raises its permanent failure on iteration `k`
(1-based, `k ≤ N`) of `run_extraction_performance_test` and all earlier
iterations succeed, the run raises (no summary is returned) and the
tracker state at the point of failure has `total_iterations = k - 1`. -/
theorem run_aborts_on_extraction_failure (expected : FieldMap)
    (extract : Nat → Except String Extracted) (N k : Nat) (e : String)
    (hk1 : 1 ≤ k) (hkN : k ≤ N)
    (hok : ∀ j, j < k - 1 → (extract j).isOk = true)
    (hfail : extract (k - 1) = .error e) :
    ∃ c, run_extraction_performance_test expected extract (N : Int) =
        .error (e, c) ∧
      c.performance_results.total_iterations = k - 1 := by
  obtain ⟨c', hc', htot⟩ := runLoop_stops extract e (k - 1) 0 N
    (mkObjectComparer expected)
    (by omega)
    (fun j hj => by simpa using hok j hj)
    (by simpa using hfail)
  refine ⟨c', ?_, ?_⟩
  · simp only [run_extraction_performance_test, Int.toNat_natCast, hc']
  · rw [htot]
    have hz : (mkObjectComparer expected).performance_results.total_iterations = 0 := rfl
    omega

/-- Witness for C2 at `N = 2`, `k = 1`, an extraction that fails
immediately. -/
theorem run_aborts_on_extraction_failure_witness :
    ∃ c, run_extraction_performance_test []
        (fun _ => (Except.error "boom" : Except String Extracted)) ((2 : Nat) : Int) =
        .error ("boom", c) ∧
      c.performance_results.total_iterations = 1 - 1 :=
  run_aborts_on_extraction_failure [] _ 2 1 "boom" (by omega) (by omega)
    (fun j hj => absurd hj (by omega)) rfl

/-- C3 counterexample: the claim says a non-positive iteration count is
reported as a configuration error before any extraction attempt.  At
iteration count `0` (with an extraction that would fail if it were ever
called), `run_extraction_performance_test` reports no error at all: it
performs no iteration and returns a degenerate summary normally. -/
theorem run_zero_iterations_returns_summary :
    run_extraction_performance_test [("LN", "DOE")]
      (fun _ => .error "model down") 0 = .ok ⟨0, 0, 0⟩ := rfl

/-- C3 (amended): `run_extraction_performance_test` performs no
iteration-count validation; for every non-positive count it makes no
extraction attempt and returns the summary of a fresh tracker normally
(the `>= 1` bound is enforced only by the page's number-input widget). -/
theorem run_nonpositive_iterations_not_validated (expected : FieldMap)
    (extract : Nat → Except String Extracted) (n : Int) (hn : n ≤ 0) :
    run_extraction_performance_test expected extract n =
      .ok (get_performance_summary (mkObjectComparer expected)) := by
  simp only [run_extraction_performance_test, Int.toNat_of_nonpos hn, runLoop]

/-- Witness for the amended C3 at iteration count `-3`. -/
theorem run_nonpositive_iterations_not_validated_witness :
    ((-3 : Int) ≤ 0) ∧
    run_extraction_performance_test [("LN", "DOE")]
        (fun _ => .error "model down") (-3) =
      .ok (get_performance_summary (mkObjectComparer [("LN", "DOE")])) :=
  ⟨by decide, run_nonpositive_iterations_not_validated _ _ _ (by decide)⟩

/-- C4: for a non-empty expected mapping, `compare_objects` on a dict
returns exactly `100 × (matched key count) / (expected key count)` where a
key matches iff it is present in the actual mapping with case-normalized
equal string value (absent keys count as non-matches), and keys present
only in the actual mapping do not affect the result. -/
theorem compare_objects_match_formula (E A : FieldMap) (hE : E ≠ []) :
    compare_objects E (.dict A) =
      100 * (claimMatchCount E A : ℚ) / (E.length : ℚ) ∧
    ∀ k v, (∀ kv ∈ E, kv.1 ≠ k) →
      compare_objects E (.dict (A ++ [(k, v)])) =
        compare_objects E (.dict A) := by
  have hlen : 0 < E.length := List.length_pos.mpr hE
  constructor
  · simp only [compare_objects, if_pos hlen]
    rw [List.countP_congr
      (fun kv _ => by rw [entryMatches_eq_claimKeyMatch])]
    rw [show List.countP (fun kv => claimKeyMatch A kv.1 kv.2) E =
      claimMatchCount E A from rfl]
    ring
  · intro k v hk
    simp only [compare_objects]
    rw [List.countP_congr (fun kv hkv => by
      rw [entryMatches_append_of_ne A k v kv.1 kv.2 (hk kv hkv)])]

/-- Witness for C4 on a singleton expected mapping with a
case-insensitively matching actual mapping. -/
theorem compare_objects_match_formula_witness :
    (([("LN", "Doe")] : FieldMap) ≠ []) ∧
    (compare_objects [("LN", "Doe")] (.dict [("LN", "DOE")]) =
        100 * (claimMatchCount [("LN", "Doe")] [("LN", "DOE")] : ℚ) /
          (([("LN", "Doe")] : FieldMap).length : ℚ) ∧
      ∀ k v, (∀ kv ∈ ([("LN", "Doe")] : FieldMap), kv.1 ≠ k) →
        compare_objects [("LN", "Doe")] (.dict ([("LN", "DOE")] ++ [(k, v)])) =
          compare_objects [("LN", "Doe")] (.dict [("LN", "DOE")])) :=
  ⟨by decide, compare_objects_match_formula _ _ (by decide)⟩

/-- C5: the comparator is total by construction and implements the two
degenerate-input policies: a non-dict actual value yields `0` whatever
the expected mapping, and an empty expected mapping yields `0` whatever
the actual value (no division by zero). -/
theorem compare_objects_total_guards :
    (∀ E : FieldMap, compare_objects E .nonDict = 0) ∧
    (∀ A : Extracted, compare_objects [] A = 0) := by
  constructor
  · intro E; rfl
  · intro A
    cases A with
    | nonDict => rfl
    | dict m => simp [compare_objects]

/-- C6: one `track_performance` call computes the comparator percentage
once and appends it to `match_percentages`, increments `total_iterations`
by one, increments `exact_matches` iff the percentage is exactly 100, and
appends the extracted value to `partial_matches` iff the percentage is
strictly between 0 and 100. -/
theorem track_performance_updates (c : ObjectComparer) (v : Extracted) :
    (track_performance c v).performance_results.total_iterations =
        c.performance_results.total_iterations + 1 ∧
    (track_performance c v).performance_results.match_percentages =
        c.performance_results.match_percentages ++
          [compare_objects c.expected_output v] ∧
    ((track_performance c v).performance_results.exact_matches =
        c.performance_results.exact_matches + 1 ↔
      compare_objects c.expected_output v = 100) ∧
    ((track_performance c v).performance_results.partial_matches =
        c.performance_results.partial_matches ++ [v] ↔
      (0 < compare_objects c.expected_output v ∧
        compare_objects c.expected_output v < 100)) := by
  refine ⟨rfl, rfl, ?_, ?_⟩
  · rw [track_performance_exact]
    split
    · next h => simp [h]
    · next h =>
        simp only [h, iff_false]
        omega
  · rw [track_performance_partial_field]
    split
    · next h => simp [h]
    · next h =>
        simp only [h, iff_false]
        intro heq
        have := congrArg List.length heq
        simp at this

/-- C7: from a freshly initialized `ObjectComparer`, any sequence of
`track_performance` calls preserves the tracker invariant:
`len(match_percentages) = total_iterations`,
`exact_matches ≤ total_iterations`, and every retained partial match has
a recorded percentage strictly between 0 and 100. -/
theorem tracker_invariant (E : FieldMap) (vs : List Extracted) :
    PerfInv (trackAll (mkObjectComparer E) vs).performance_results :=
  perfInv_trackAll _ vs perfInv_init

/-- C8: `get_performance_summary` returns
`exact_match_rate = 100 * exact_matches / total_iterations` (0 when there
are no iterations) and `average_match_percentage` equal to the arithmetic
mean of `match_percentages` (0 when the list is empty); on a fresh state
it returns all zeroes and, being total, can raise no division error. -/
theorem get_performance_summary_spec (c : ObjectComparer) :
    (get_performance_summary c).total_iterations =
        c.performance_results.total_iterations ∧
    (get_performance_summary c).exact_match_rate =
        (if c.performance_results.total_iterations = 0 then 0
         else 100 * (c.performance_results.exact_matches : ℚ) /
           (c.performance_results.total_iterations : ℚ)) ∧
    (get_performance_summary c).average_match_percentage =
        (if c.performance_results.match_percentages = [] then 0
         else c.performance_results.match_percentages.sum /
           (c.performance_results.match_percentages.length : ℚ)) ∧
    (∀ E, get_performance_summary (mkObjectComparer E) = ⟨0, 0, 0⟩) := by
  refine ⟨rfl, ?_, ?_, fun E => rfl⟩
  · show (if c.performance_results.total_iterations > 0 then
        ((c.performance_results.exact_matches : ℚ) /
          (c.performance_results.total_iterations : ℚ)) * 100
      else 0) = _
    rcases Nat.eq_zero_or_pos c.performance_results.total_iterations with h | h
    · simp [h]
    · rw [if_pos h, if_neg (by omega)]
      ring
  · show (if c.performance_results.match_percentages ≠ [] then
        npMean c.performance_results.match_percentages
      else 0) = _
    rcases eq_or_ne c.performance_results.match_percentages [] with h | h
    · simp [h]
    · simp [h, npMean]

/-- C9: on the evaluation page, an uploaded file strictly larger than
5 MB triggers the error message but gates nothing: the image is still
opened, rotated and displayed, and the performance run is still invoked
exactly when the process button is pressed. -/
theorem size_limit_gates_nothing (size : Nat) (pressed : Bool)
    (h : size > max_size) :
    run_evaluation_page ⟨some size, pressed⟩ =
      { size_error_shown := true
        image_opened := true
        image_rotated := true
        original_displayed := true
        rotated_displayed := true
        run_invoked := pressed } := by
  simp [run_evaluation_page, h]

/-- Witness for C9 at one byte over the 5 MB limit with the button
pressed. -/
theorem size_limit_gates_nothing_witness :
    (5 * 1024 * 1024 + 1 > max_size) ∧
    run_evaluation_page ⟨some (5 * 1024 * 1024 + 1), true⟩ =
      { size_error_shown := true
        image_opened := true
        image_rotated := true
        original_displayed := true
        rotated_displayed := true
        run_invoked := true } :=
  ⟨by decide, size_limit_gates_nothing _ _ (by decide)⟩

/-- C10: `process_document` is not atomic on the invalid-extension error:
with an uploaded image whose extension is invalid, the error is raised
only after `image_base64` has been overwritten with the new encoding,
while `ext` keeps its previous value. -/
theorem process_document_setup_not_atomic (st : ProcessorState)
    (name enc : String)
    (h : valid_extensions.contains (extOf name) = false) :
    process_document_setup st (some name) enc =
      ({ image_base64 := some enc, ext := st.ext }, some .invalidExtension) := by
  have h' : extOf name ∉ valid_extensions := by simpa using h
  simp [process_document_setup, h']

/-- Witness for C10: uploading `doc.pdf` over a processor that held a
previous png image. -/
theorem process_document_setup_not_atomic_witness :
    (valid_extensions.contains (extOf "doc.pdf") = false) ∧
    process_document_setup ⟨some "OLDB64", some "png"⟩ (some "doc.pdf") "NEWB64" =
      (⟨some "NEWB64", some "png"⟩, some .invalidExtension) :=
  ⟨by decide, process_document_setup_not_atomic _ _ _ (by decide)⟩
